import Mathlib

/-!
Shallow embedding of the command correlation and state-synchronization engine
of ts_attcpip (python/lsst/ts/attcpip), together with proofs about the claims
of its specification.

The embedding covers:
* `enums.py`: the `Ack`, `CommonCommand`, ... enums and the SAL `State` enum;
* `at_simulator.py`: `AtSimulator.verify_data`, `AtSimulator.dispatch_dict`,
  the `disable` / `enable` / `standby` handlers and
  `AtSimulator.cmd_evt_dispatch_callback`;
* `command_issued.py`: the `CommandIssued` ticket with its four setters;
* `csc.py`: `AtTcpipCsc._handle_command_response`, `wait_fail_reason_event`,
  `_cleanup_commands`, `write_command` and the `begin_enable` driver loop.

Python mutation is rendered as explicit state passing; exceptions raised by
the Python code (KeyError, TypeError, RuntimeError) are rendered as error
results that carry the mutations performed before the raise.  Wall-clock
timestamps (`utils.current_tai()`) are modelled as natural numbers measured
in seconds, which is enough for the timeout arithmetic of the claims.
-/

namespace Attcpip

/-- SAL states (lsst.ts.xml.sal_enums.State) used by the engine. -/
inductive State where
  | standby
  | disabled
  | enabled
  | fault
  | offline
deriving DecidableEq, Repr

/-- Acknowledgement codes, from the `Ack` enum in `enums.py`.  On the wire
they are the strings returned by `ackString`. -/
inductive Ack where
  | ack
  | fail
  | noack
  | success
  | failReason
deriving DecidableEq, Repr

/-- Wire string of an acknowledgement code (the `Ack` StrEnum values). -/
def ackString : Ack → String
  | Ack.ack => "ack"
  | Ack.fail => "fail"
  | Ack.noack => "noack"
  | Ack.success => "success"
  | Ack.failReason => "failReason"

/-- Common state commands, from the `CommonCommand` enum in `enums.py`. -/
inductive CommonCommand where
  | disable
  | enable
  | standby
  | start
deriving DecidableEq, Repr

/-- Wire string of a common command (the `CommonCommand` StrEnum values). -/
def commandString : CommonCommand → String
  | CommonCommand.disable => "cmd_disable"
  | CommonCommand.enable => "cmd_enable"
  | CommonCommand.standby => "cmd_standby"
  | CommonCommand.start => "cmd_start"

/-- An inbound command message as seen by the device simulator: a JSON dict
with an optional `id` field, an optional `sequence_id` field, an optional
`value` field, and any further payload keys (`extraKeys`).  Fields that the
dict does not contain are `none` / `false` / `[]`. -/
structure Message where
  id : Option String
  sequence_id : Option Int
  hasValue : Bool
  extraKeys : List String
deriving DecidableEq, Repr

/-- Mutable state of `AtSimulator`: the anti-gap counter `last_sequence_id`
(initialised to 0) and `simulator_state` (initialised to STANDBY). -/
structure SimState where
  last_sequence_id : Int
  simulator_state : State
deriving DecidableEq, Repr

/-- The state of `AtSimulator` right after `__init__`. -/
def initSimState : SimState :=
  { last_sequence_id := 0, simulator_state := State.standby }

/-- Messages written by the simulator on the cmd/evt connection: command
responses (an `Ack` code with the echoed `sequence_id`) and
`evt_summaryState` events carrying the new state. -/
inductive Output where
  | cmdResponse (code : Ack) (sequence_id : Int)
  | evtSummaryState (summaryState : State)
deriving DecidableEq, Repr

/-- Membership test of the known-schema registry, modelled from the spec:
the JSON schema files themselves live outside the embedded sources, and the
spec treats schema lookup as a collaborator.  The registry of the base
package holds one schema per common command, keyed by the command name with
the `cmd_` prefix normalised to `command_`. -/
def common_registry : String → Bool := fun payload_id =>
  payload_id == "command_disable" || payload_id == "command_enable" ||
  payload_id == "command_standby" || payload_id == "command_start"

/-- If `p` is a prefix of the character list, return the remainder, else
`none`. -/
def stripPrefixChars : List Char → List Char → Option (List Char)
  | s, [] => some s
  | [], _ :: _ => none
  | a :: s, b :: p => if a = b then stripPrefixChars s p else none

/-- Left-to-right non-overlapping replacement of `old` by `new` over a
character list, with `fuel` bounding the scan (structural recursion so that
proofs can evaluate it; callers pass the list length as fuel). -/
def replaceLoop (old new : List Char) : Nat → List Char → List Char
  | _, [] => []
  | 0, s => s
  | Nat.succ fuel, a :: s =>
    match stripPrefixChars (a :: s) old with
    | some rest => new ++ replaceLoop old new fuel rest
    | none => a :: replaceLoop old new fuel s

/-- Python `str.replace(old, new)`: replace every non-overlapping occurrence
of `old`, scanning left to right.  The source only calls it with the
constant `"cmd_"`, so the empty-pattern corner is mapped to the identity. -/
def pyReplace (s old new : String) : String :=
  if old.data.isEmpty then s
  else String.mk (replaceLoop old.data new.data s.data.length s.data)

/-- Embedding of `AtSimulator.verify_data`.  `reg` is registry membership and
`valid` is the jsonschema validation predicate (an external collaborator in
the spec's terms); both are parameters of the embedding.  Returns the boolean
result together with the simulator state after the call: note that the
source updates `self.last_sequence_id` before the schema validation step, so
a message that fails only schema validation still advances the counter. -/
def verify_data (reg : String → Bool) (valid : Message → Bool)
    (s : SimState) (data : Message) : Bool × SimState :=
  match data.id, data.sequence_id with
  | none, _ => (false, s)
  | some _, none => (false, s)
  | some msg_id, some sequence_id =>
    let payload_id := pyReplace msg_id "cmd_" "command_"
    if ¬ reg payload_id then (false, s)
    else if sequence_id - s.last_sequence_id ≠ 1 then (false, s)
    else
      let s1 := { s with last_sequence_id := sequence_id }
      if valid data then (true, s1) else (false, s1)

/-- Embedding of `AtSimulator.disable` (also the handler for `cmd_start` in
`dispatch_dict`): unconditionally sets DISABLED, writes a `success` response
and then an `evt_summaryState` event. -/
def disable (s : SimState) (sequence_id : Int) : SimState × List Output :=
  ({ s with simulator_state := State.disabled },
   [Output.cmdResponse Ack.success sequence_id,
    Output.evtSummaryState State.disabled])

/-- Embedding of `AtSimulator.enable`: unconditionally sets ENABLED, writes a
`success` response and then an `evt_summaryState` event. -/
def enable (s : SimState) (sequence_id : Int) : SimState × List Output :=
  ({ s with simulator_state := State.enabled },
   [Output.cmdResponse Ack.success sequence_id,
    Output.evtSummaryState State.enabled])

/-- Embedding of `AtSimulator.standby`: unconditionally sets STANDBY, writes
a `success` response and then an `evt_summaryState` event. -/
def standby (s : SimState) (sequence_id : Int) : SimState × List Output :=
  ({ s with simulator_state := State.standby },
   [Output.cmdResponse Ack.success sequence_id,
    Output.evtSummaryState State.standby])

/-- Embedding of `AtSimulator.dispatch_dict`: maps the command id string to
its handler.  Note that `cmd_start` is mapped to the `disable` handler. -/
def dispatch_dict (cmd : String) :
    Option (SimState → Int → SimState × List Output) :=
  if cmd = "cmd_disable" then some disable
  else if cmd = "cmd_enable" then some enable
  else if cmd = "cmd_standby" then some standby
  else if cmd = "cmd_start" then some disable
  else none

/-- Result of one call of `cmd_evt_dispatch_callback`: either a normal
return, or a Python exception escaping the callback.  Both carry the
simulator state and the outputs written up to that point (mutations made
before a raise persist on the object). -/
inductive DispatchResult where
  | ok (s : SimState) (out : List Output)
  | err (s : SimState) (out : List Output) (msg : String)
deriving DecidableEq, Repr

/-- Embedding of `AtSimulator.cmd_evt_dispatch_callback`.  The data is
verified; on failure a `noack` is written (reading `data["sequence_id"]`,
which raises KeyError if that key is absent).  On success an `ack` is
written, the handler is looked up in `dispatch_dict` (KeyError if absent)
and called with all keys except `id` and `value` as keyword arguments; the
handlers accept only `sequence_id`, so any extra payload key raises
TypeError before the handler body runs. -/
def cmd_evt_dispatch_callback (reg : String → Bool) (valid : Message → Bool)
    (s : SimState) (data : Message) : DispatchResult :=
  let v := verify_data reg valid s data
  let s1 := v.2
  if v.1 = false then
    match data.sequence_id with
    | some sequence_id =>
      DispatchResult.ok s1 [Output.cmdResponse Ack.noack sequence_id]
    | none => DispatchResult.err s1 [] "KeyError: sequence_id"
  else
    match data.id, data.sequence_id with
    | some msg_id, some sequence_id =>
      let ackOut := Output.cmdResponse Ack.ack sequence_id
      match dispatch_dict msg_id with
      | some f =>
        if data.extraKeys ≠ [] then
          DispatchResult.err s1 [ackOut] "TypeError: unexpected keyword argument"
        else
          let r := f s1 sequence_id
          DispatchResult.ok r.1 (ackOut :: r.2)
      | none => DispatchResult.err s1 [ackOut] "KeyError: dispatch_dict"
    | _, _ => DispatchResult.err s1 [] "unreachable: verify_data guarantees both keys"

/-- Simulator state reached after a call of the dispatch callback, whether
it returned normally or raised. -/
def stateAfter : DispatchResult → SimState
  | DispatchResult.ok s _ => s
  | DispatchResult.err s _ _ => s

/-- Process a whole sequence of inbound messages through
`cmd_evt_dispatch_callback`, threading the simulator state. -/
def run_sim (reg : String → Bool) (valid : Message → Bool) :
    SimState → List Message → SimState
  | s, [] => s
  | s, d :: ds =>
    run_sim reg valid (stateAfter (cmd_evt_dispatch_callback reg valid s d)) ds

/-- Timeout [s] for receiving a fail reason (`FAIL_REASON_TIMEOUT` in
`csc.py`). -/
def FAIL_REASON_TIMEOUT : Nat := 1

/-- Timeout [s] for commands to report that they are done
(`CMD_DONE_TIMEOUT` in `csc.py`); also the sleep interval of the
`_cleanup_commands` background task. -/
def CMD_DONE_TIMEOUT : Nat := 60

/-- Result stored in the `done` future of a ticket: `set_result(None)` on
success, or the message of the `RuntimeError` stored by `set_exception`. -/
inductive DoneResult where
  | success
  | failure (msg : String)
deriving DecidableEq, Repr

/-- Embedding of the `CommandIssued` ticket of `command_issued.py`.  The
`done` field is the single-resolution future: `none` while pending, `some r`
once resolved. -/
structure CommandIssued where
  name : String
  timestamp : Nat
  ack_timestamp : Option Nat
  done_timestamp : Option Nat
  done : Option DoneResult
deriving DecidableEq, Repr

/-- A fresh ticket, as built by `CommandIssued.__init__` at time `now`. -/
def CommandIssued.new (now : Nat) (name : String) : CommandIssued :=
  { name := name, timestamp := now, ack_timestamp := none,
    done_timestamp := none, done := none }

/-- Message of the exception stored by `set_noack` (Python:
f-string "Command {name} was not acknowledged."). -/
def noackMessage (name : String) : String :=
  "Command " ++ name ++ " was not acknowledged."

/-- Message of the exception stored by `set_fail` (Python: f-string
"Command {name} failed with reason=...", where `!r` additionally quotes the
reason; the quotes are elided here). -/
def failMessage (name : String) (reason : String) : String :=
  "Command " ++ name ++ " failed with reason=" ++ reason ++ "."

/-- Embedding of `CommandIssued.set_ack`: only timestamps the ticket, the
`done` future is untouched. -/
def CommandIssued.set_ack (c : CommandIssued) (now : Nat) : CommandIssued :=
  { c with ack_timestamp := some now }

/-- Embedding of `CommandIssued.set_noack`: timestamps the ticket and, if
the future is not yet done, stores the not-acknowledged exception. -/
def CommandIssued.set_noack (c : CommandIssued) (now : Nat) : CommandIssued :=
  { c with
    ack_timestamp := some now
    done := if c.done.isSome then c.done
            else some (DoneResult.failure (noackMessage c.name)) }

/-- Embedding of `CommandIssued.set_success`: timestamps the ticket and, if
the future is not yet done, stores the success result. -/
def CommandIssued.set_success (c : CommandIssued) (now : Nat) : CommandIssued :=
  { c with
    done_timestamp := some now
    done := if c.done.isSome then c.done else some DoneResult.success }

/-- Embedding of `CommandIssued.set_fail`: timestamps the ticket and, if the
future is not yet done, stores the failure exception built from `reason`. -/
def CommandIssued.set_fail (c : CommandIssued) (now : Nat) (reason : String) :
    CommandIssued :=
  { c with
    done_timestamp := some now
    done := if c.done.isSome then c.done
            else some (DoneResult.failure (failMessage c.name reason)) }

/-- One call of a resolving setter (`set_noack`, `set_success` or
`set_fail`), for quantifying over the three terminal operations. -/
inductive ResolveOp where
  | noack (now : Nat)
  | success (now : Nat)
  | fail (now : Nat) (reason : String)
deriving DecidableEq, Repr

/-- Apply a resolving setter to a ticket. -/
def applyResolve (c : CommandIssued) : ResolveOp → CommandIssued
  | ResolveOp.noack now => c.set_noack now
  | ResolveOp.success now => c.set_success now
  | ResolveOp.fail now reason => c.set_fail now reason

/-- The `commands_issued` dict of `AtTcpipCsc`, keyed by sequence id.  The
list mirrors Python dict insertion order; keys are kept unique by
`CmdMap.insert`. -/
abbrev CmdMap := List (Int × CommandIssued)

/-- Dict lookup `commands_issued.get(sequence_id)`. -/
def CmdMap.lookup : CmdMap → Int → Option CommandIssued
  | [], _ => none
  | (k, t) :: rest, sequence_id =>
    if k = sequence_id then some t else CmdMap.lookup rest sequence_id

/-- Dict assignment `commands_issued[sequence_id] = t`: replaces the entry
when the key is present, appends otherwise. -/
def CmdMap.insert : CmdMap → Int → CommandIssued → CmdMap
  | [], sequence_id, t => [(sequence_id, t)]
  | (k, u) :: rest, sequence_id, t =>
    if k = sequence_id then (k, t) :: rest
    else (k, u) :: CmdMap.insert rest sequence_id t

/-- Dict deletion `del commands_issued[sequence_id]`. -/
def CmdMap.erase : CmdMap → Int → CmdMap
  | [], _ => []
  | (k, u) :: rest, sequence_id =>
    if k = sequence_id then rest else (k, u) :: CmdMap.erase rest sequence_id

/-- Controller-side state touched by the response handling of `csc.py`: the
live ticket dict, the shared `fail_reason_event` flag, and the sequence ids
for which a `wait_fail_reason_event` background task has been spawned. -/
structure CtrlState where
  commands_issued : CmdMap
  fail_reason_event : Bool
  waiters : List Int
deriving DecidableEq, Repr

/-- An acknowledgement message received on the cmd/evt connection: the `id`
field (an ack-code string), the `sequence_id`, and the optional `reason` and
`errorDetails` keys (`none` when the key is absent from the dict). -/
structure RespData where
  id : String
  sequence_id : Int
  reason : Option String
  errorDetails : Option String
deriving DecidableEq, Repr

/-- Result of a controller-side handler call: a normal return or an escaping
Python exception; both carry the controller state reached (mutations made
before a raise persist) and the tickets resolved-and-removed by the call,
each with its final object state. -/
inductive HandleResult where
  | ok (c : CtrlState) (removed : List (Int × CommandIssued))
  | raised (c : CtrlState) (removed : List (Int × CommandIssued)) (msg : String)
deriving DecidableEq, Repr

/-- Embedding of `AtTcpipCsc._handle_command_response`.  A response for an
unknown sequence id is logged and ignored; `ack` timestamps the ticket;
`noack` and `success` resolve and delete it; `fail` clears the shared
`fail_reason_event` and spawns a `wait_fail_reason_event` task without
touching the ticket; `failReason` sets the event, resolves the ticket with
the supplied reason (appending `errorDetails` when truthy) and deletes it
(reading the `reason` and `errorDetails` keys raises KeyError when absent);
any other code raises RuntimeError (Python: f-string
"Received unexpected {response=}.", the `=` repr quotes elided here). -/
def handle_command_response (now : Nat) (c : CtrlState) (data : RespData) :
    HandleResult :=
  let sequence_id := data.sequence_id
  match c.commands_issued.lookup sequence_id with
  | none => HandleResult.ok c []
  | some t =>
    if data.id = "ack" then
      HandleResult.ok
        { c with commands_issued :=
            c.commands_issued.insert sequence_id (t.set_ack now) } []
    else if data.id = "noack" then
      HandleResult.ok
        { c with commands_issued := c.commands_issued.erase sequence_id }
        [(sequence_id, t.set_noack now)]
    else if data.id = "success" then
      HandleResult.ok
        { c with commands_issued := c.commands_issued.erase sequence_id }
        [(sequence_id, t.set_success now)]
    else if data.id = "fail" then
      HandleResult.ok
        { c with
          fail_reason_event := false
          waiters := c.waiters ++ [sequence_id] } []
    else if data.id = "failReason" then
      let c1 := { c with fail_reason_event := true }
      match data.reason with
      | none => HandleResult.raised c1 [] "KeyError: reason"
      | some r =>
        match data.errorDetails with
        | none => HandleResult.raised c1 [] "KeyError: errorDetails"
        | some d =>
          let reason := if d ≠ "" then r ++ ": " ++ d ++ "." else r ++ "."
          HandleResult.ok
            { c1 with commands_issued := c1.commands_issued.erase sequence_id }
            [(sequence_id, t.set_fail now reason)]
    else
      HandleResult.raised c []
        ("Received unexpected response=" ++ data.id ++ ".")

/-- Sequencing of controller-side handler calls, accumulating the resolved
tickets and stopping at the first escaping exception. -/
def HandleResult.thenRun (r : HandleResult) (f : CtrlState → HandleResult) :
    HandleResult :=
  match r with
  | HandleResult.ok c removed =>
    match f c with
    | HandleResult.ok c2 removed2 => HandleResult.ok c2 (removed ++ removed2)
    | HandleResult.raised c2 removed2 msg =>
      HandleResult.raised c2 (removed ++ removed2) msg
  | HandleResult.raised c removed msg => HandleResult.raised c removed msg

/-- Process a list of incoming acknowledgement messages in order through
`handle_command_response`. -/
def handle_messages (now : Nat) (c : CtrlState) : List RespData → HandleResult
  | [] => HandleResult.ok c []
  | d :: ds =>
    (handle_command_response now c d).thenRun
      (fun c1 => handle_messages now c1 ds)

/-- Embedding of the body of `AtTcpipCsc.wait_fail_reason_event`, evaluated
at the end of the bounded wait window: if the shared `fail_reason_event` was
set during the window (by any `failReason` handled for a live ticket) the
wait returns and the task does nothing; otherwise the TimeoutError branch
resolves the ticket with reason "No reason provided." and deletes it
(raising KeyError if the sequence id is no longer present). -/
def wait_fail_reason_event (now : Nat) (c : CtrlState) (sequence_id : Int) :
    HandleResult :=
  if c.fail_reason_event then HandleResult.ok c []
  else
    match c.commands_issued.lookup sequence_id with
    | none => HandleResult.raised c [] "KeyError: sequence_id"
    | some t =>
      HandleResult.ok
        { c with commands_issued := c.commands_issued.erase sequence_id }
        [(sequence_id, t.set_fail now "No reason provided.")]

/-- The reason-or-timeout race that follows a `fail` response for
`sequence_id`: the `fail` message is handled (clearing the event and
spawning the waiter), then the `failReason` messages arriving within the
`FAIL_REASON_TIMEOUT` window are handled in order, and finally the waiter
observes the event or times out. -/
def run_fail_window (now : Nat) (c : CtrlState) (sequence_id : Int)
    (arrivals : List RespData) : HandleResult :=
  (handle_command_response now c
      { id := "fail", sequence_id := sequence_id,
        reason := none, errorDetails := none }).thenRun
    (fun c1 => (handle_messages now c1 arrivals).thenRun
      (fun c2 => wait_fail_reason_event now c2 sequence_id))

/-- Embedding of one pass of the `while True` body of
`AtTcpipCsc._cleanup_commands` at time `now`: every live ticket older than
`CMD_DONE_TIMEOUT` is resolved via `set_fail("No fail reason received.")`
and popped from the dict.  Returns the remaining dict and the removed
tickets with their final object state. -/
def cleanup_commands_sweep (now : Nat) :
    CmdMap → CmdMap × List (Int × CommandIssued)
  | [] => ([], [])
  | (k, t) :: rest =>
    let r := cleanup_commands_sweep now rest
    if now - t.timestamp > CMD_DONE_TIMEOUT then
      (r.1, (k, t.set_fail now "No fail reason received.") :: r.2)
    else ((k, t) :: r.1, r.2)

/-- Repeated sweeps of `_cleanup_commands`: the task checks immediately and
then sleeps `CMD_DONE_TIMEOUT` between checks, so starting at `s0` the
sweeps run at times `s0 + CMD_DONE_TIMEOUT * i`.  Under total silence no
other code touches the dict between sweeps.  Returns the dict after `k`
sweeps and the removed tickets tagged with their sweep time. -/
def run_reaper (s0 : Nat) : Nat → CmdMap → CmdMap × List (Nat × Int × CommandIssued)
  | 0, m => (m, [])
  | Nat.succ k, m =>
    let r := cleanup_commands_sweep s0 m
    let rr := run_reaper (s0 + CMD_DONE_TIMEOUT) k r.1
    (rr.1, r.2.map (fun p => (s0, p.1, p.2)) ++ rr.2)

/-- Embedding of the ticket-registration part of `AtTcpipCsc.write_command`:
a fresh pending `CommandIssued` is built and stored under the sequence id
drawn from the generator, by plain dict assignment. -/
def write_command (c : CtrlState) (now : Nat) (command : String)
    (sequence_id : Int) : CtrlState × CommandIssued :=
  let command_issued := CommandIssued.new now command
  ({ c with commands_issued :=
      c.commands_issued.insert sequence_id command_issued },
   command_issued)

/-- The single next device command chosen by the `match self.at_state` of
`AtTcpipCsc.begin_enable`: FAULT picks STANDBY, STANDBY picks START,
DISABLED picks ENABLE; any other state (the device already ENABLED) makes
the method return. -/
def next_command : State → Option CommonCommand
  | State.fault => some CommonCommand.standby
  | State.standby => some CommonCommand.start
  | State.disabled => some CommonCommand.enable
  | _ => none

/-- Device state reached when the simulator executes an accepted common
command, read off from the actual handler that `dispatch_dict` maps the
command to. -/
def device_apply (cmd : CommonCommand) (st : State) : State :=
  match dispatch_dict (commandString cmd) with
  | some f => (f { last_sequence_id := 0, simulator_state := st } 0).1.simulator_state
  | none => st

/-- Embedding of the driver loop of `AtTcpipCsc.begin_enable` in the
fault-free connected path: while the CSC summary state (constant during the
loop, DISABLED while `do_enable` runs) is neither ENABLED nor FAULT, the
next command is chosen from the last-known device state; the device
executes it and the resulting `evt_summaryState` updates `at_state` before
the loop re-evaluates.  Returns the commands issued in order and the final
device state; `fuel` bounds the number of iterations. -/
def begin_enable_loop (summary : State) : Nat → State → List CommonCommand × State
  | 0, at_st => ([], at_st)
  | Nat.succ fuel, at_st =>
    if summary = State.enabled ∨ summary = State.fault then ([], at_st)
    else
      match next_command at_st with
      | none => ([], at_st)
      | some cmd =>
        let at2 := device_apply cmd at_st
        let r := begin_enable_loop summary fuel at2
        (cmd :: r.1, r.2)

/-! Concrete sample data used by witnesses and counterexamples. -/

/-- A sample schema-validation predicate: the payload validates exactly when
it has no keys beyond `id`, `sequence_id` and `value` (the common command
schemas declare no further properties). -/
def strictValid : Message → Bool := fun d => d.extraKeys.isEmpty

/-- A well-formed `cmd_start` message with the given sequence id. -/
def msgStart (sequence_id : Int) : Message :=
  { id := some "cmd_start", sequence_id := some sequence_id,
    hasValue := false, extraKeys := [] }

/-- A `cmd_start` message carrying a payload key that violates the schema. -/
def schemaBadMsg : Message :=
  { id := some "cmd_start", sequence_id := some 1,
    hasValue := false, extraKeys := ["azimuth"] }

/-- A `cmd_start` message with the `sequence_id` key missing. -/
def noSeqMsg : Message :=
  { id := some "cmd_start", sequence_id := none,
    hasValue := false, extraKeys := [] }

/-! Helper lemmas about `verify_data` and the dispatch table. -/

/-- `verify_data` never touches `simulator_state`. -/
theorem verify_data_simulator_state (reg : String → Bool)
    (valid : Message → Bool) (s : SimState) (data : Message) :
    (verify_data reg valid s data).2.simulator_state = s.simulator_state := by
  unfold verify_data
  rcases data with ⟨id, seq, hasValue, extraKeys⟩
  cases id <;> cases seq <;> simp only []
  all_goals repeat
    first
    | rfl
    | split

/-- When the message carries a sequence id that is not exactly
`last_sequence_id + 1`, `verify_data` returns `False` and leaves the whole
simulator state unchanged. -/
theorem verify_data_gap (reg : String → Bool) (valid : Message → Bool)
    (s : SimState) (data : Message) (sequence_id : Int)
    (hseq : data.sequence_id = some sequence_id)
    (hne : sequence_id ≠ s.last_sequence_id + 1) :
    verify_data reg valid s data = (false, s) := by
  unfold verify_data
  rcases data with ⟨id, seq, hasValue, extraKeys⟩
  simp only [Message.sequence_id] at hseq
  subst hseq
  cases id with
  | none => rfl
  | some m =>
    simp only []
    split
    · rfl
    · have h2 : sequence_id - s.last_sequence_id ≠ 1 := by omega
      simp [h2]

/-- When `verify_data` accepts, the message carried `last_sequence_id + 1`
as its sequence id and the returned state advances the counter to it. -/
theorem verify_data_accept (reg : String → Bool) (valid : Message → Bool)
    (s : SimState) (data : Message) (s1 : SimState)
    (h : verify_data reg valid s data = (true, s1)) :
    ∃ sequence_id, data.sequence_id = some sequence_id ∧
      sequence_id = s.last_sequence_id + 1 ∧
      s1 = { s with last_sequence_id := sequence_id } := by
  unfold verify_data at h
  rcases data with ⟨id, seq, hasValue, extraKeys⟩
  cases id with
  | none => simp at h
  | some m =>
    cases seq with
    | none => simp at h
    | some sequence_id =>
      simp only [] at h
      refine ⟨sequence_id, rfl, ?_⟩
      split at h
      · simp at h
      · split at h
        · simp at h
        · split at h
          · rename_i hreg hdelta _
            simp only [Prod.mk.injEq] at h
            exact ⟨by omega, h.2.symm⟩
          · simp at h

/-- Every handler reachable through `dispatch_dict` sets `simulator_state`
to STANDBY, DISABLED or ENABLED, never to FAULT. -/
theorem dispatch_dict_handler_state (cmd : String)
    (f : SimState → Int → SimState × List Output)
    (hf : dispatch_dict cmd = some f) (s : SimState) (sequence_id : Int) :
    (f s sequence_id).1.simulator_state = State.standby ∨
    (f s sequence_id).1.simulator_state = State.disabled ∨
    (f s sequence_id).1.simulator_state = State.enabled := by
  unfold dispatch_dict at hf
  split at hf
  · injection hf with h
    subst h
    exact Or.inr (Or.inl rfl)
  · split at hf
    · injection hf with h
      subst h
      exact Or.inr (Or.inr rfl)
    · split at hf
      · injection hf with h
        subst h
        exact Or.inl rfl
      · split at hf
        · injection hf with h
          subst h
          exact Or.inr (Or.inl rfl)
        · cases hf

/-! C1: sequence-id discipline of the device simulator. -/

/-- C1: an inbound command message whose sequence id is not exactly
`last_sequence_id + 1` makes the simulator reply `noack` and leaves
`last_sequence_id` and `simulator_state` unchanged; and every command that
`verify_data` accepts advances `last_sequence_id` by exactly 1 (leaving
`simulator_state` untouched at validation time). -/
theorem seq_gap_noack_and_accept_increments (reg : String → Bool)
    (valid : Message → Bool) (s : SimState) (data : Message)
    (sequence_id : Int) (hseq : data.sequence_id = some sequence_id) :
    (sequence_id ≠ s.last_sequence_id + 1 →
      cmd_evt_dispatch_callback reg valid s data =
        DispatchResult.ok s [Output.cmdResponse Ack.noack sequence_id]) ∧
    (∀ s1, verify_data reg valid s data = (true, s1) →
      s1.last_sequence_id = s.last_sequence_id + 1 ∧
      s1.simulator_state = s.simulator_state) := by
  constructor
  · intro hne
    have hv := verify_data_gap reg valid s data sequence_id hseq hne
    unfold cmd_evt_dispatch_callback
    rw [hv, hseq]
    rfl
  · intro s1 h
    obtain ⟨sid, hsid, hinc, hs1⟩ := verify_data_accept reg valid s data s1 h
    subst hs1
    exact ⟨by simpa using hinc, rfl⟩

/-- C1 witness: the gap case and the accept case at concrete inputs. -/
theorem seq_gap_noack_and_accept_increments_witness :
    (msgStart 3).sequence_id = some 3 ∧
    (cmd_evt_dispatch_callback common_registry strictValid initSimState (msgStart 3) =
      DispatchResult.ok initSimState [Output.cmdResponse Ack.noack 3]) ∧
    (verify_data common_registry strictValid initSimState (msgStart 1) =
      (true, { last_sequence_id := 1, simulator_state := State.standby }) ∧
     (1 : Int) = initSimState.last_sequence_id + 1) := by
  refine ⟨rfl, ?_, rfl, rfl⟩
  exact (seq_gap_noack_and_accept_increments common_registry strictValid
    initSimState (msgStart 3) 3 rfl).1 (by decide)

/-! C2: short-circuiting of the validation chain. -/

/-- C2 (amended): full characterization of the validation failures of the
dispatch callback.  A message with a sequence id but no `id` key, an unknown
command, or a sequence-id gap yields `noack` with the whole simulator state
unchanged; a payload schema violation yields `noack` with `simulator_state`
unchanged but `last_sequence_id` already advanced to the message's sequence
id; a message without a `sequence_id` key raises KeyError instead of
replying `noack`. -/
theorem validation_failure_characterization (reg : String → Bool)
    (valid : Message → Bool) (s : SimState) (data : Message)
    (sequence_id : Int) :
    (data.sequence_id = some sequence_id → data.id = none →
      cmd_evt_dispatch_callback reg valid s data =
        DispatchResult.ok s [Output.cmdResponse Ack.noack sequence_id]) ∧
    (∀ msg_id, data.sequence_id = some sequence_id → data.id = some msg_id →
      reg (pyReplace msg_id "cmd_" "command_") = false →
      cmd_evt_dispatch_callback reg valid s data =
        DispatchResult.ok s [Output.cmdResponse Ack.noack sequence_id]) ∧
    (data.sequence_id = some sequence_id →
      sequence_id ≠ s.last_sequence_id + 1 →
      cmd_evt_dispatch_callback reg valid s data =
        DispatchResult.ok s [Output.cmdResponse Ack.noack sequence_id]) ∧
    (∀ msg_id, data.sequence_id = some sequence_id → data.id = some msg_id →
      reg (pyReplace msg_id "cmd_" "command_") = true →
      sequence_id = s.last_sequence_id + 1 → valid data = false →
      cmd_evt_dispatch_callback reg valid s data =
        DispatchResult.ok { s with last_sequence_id := sequence_id }
          [Output.cmdResponse Ack.noack sequence_id]) ∧
    (data.sequence_id = none →
      cmd_evt_dispatch_callback reg valid s data =
        DispatchResult.err s [] "KeyError: sequence_id") := by
  rcases data with ⟨id, seq, hv, ek⟩
  refine ⟨?_, ?_, ?_, ?_, ?_⟩
  · intro hseq hid
    simp only [] at hseq hid
    subst hseq; subst hid
    rfl
  · intro msg_id hseq hid hreg
    simp only [] at hseq hid
    subst hseq; subst hid
    have hverify : verify_data reg valid s ⟨some msg_id, some sequence_id, hv, ek⟩ =
        (false, s) := by
      unfold verify_data
      simp [hreg]
    unfold cmd_evt_dispatch_callback
    rw [hverify]
    rfl
  · intro hseq hne
    have hverify := verify_data_gap reg valid s ⟨id, seq, hv, ek⟩ sequence_id hseq hne
    simp only [] at hseq
    subst hseq
    unfold cmd_evt_dispatch_callback
    rw [hverify]
    rfl
  · intro msg_id hseq hid hreg hdelta hvalid
    simp only [] at hseq hid
    subst hseq; subst hid
    have h2 : ¬ (sequence_id - s.last_sequence_id ≠ 1) := by omega
    have hverify : verify_data reg valid s ⟨some msg_id, some sequence_id, hv, ek⟩ =
        (false, { s with last_sequence_id := sequence_id }) := by
      unfold verify_data
      simp [hreg, h2, hvalid]
    unfold cmd_evt_dispatch_callback
    rw [hverify]
    rfl
  · intro hseq
    simp only [] at hseq
    subst hseq
    cases id <;> rfl

/-- C2 counterexample: a schema-violating message gets `noack` but the
post-call `last_sequence_id` is 1, no longer the pre-call value 0, and a
message lacking the `sequence_id` key raises KeyError instead of getting a
`noack` reply — both contradicting the claim that every validation failure
yields `noack` and leaves `last_sequence_id` unchanged. -/
theorem validation_failure_counterexample :
    (cmd_evt_dispatch_callback common_registry strictValid initSimState schemaBadMsg =
       DispatchResult.ok { last_sequence_id := 1, simulator_state := State.standby }
         [Output.cmdResponse Ack.noack 1] ∧
     (1 : Int) ≠ initSimState.last_sequence_id) ∧
    cmd_evt_dispatch_callback common_registry strictValid initSimState noSeqMsg =
      DispatchResult.err initSimState [] "KeyError: sequence_id" :=
  ⟨⟨rfl, by decide⟩, rfl⟩

/-- C2 witness: the schema-violation branch of the characterization applied
at a concrete message. -/
theorem validation_failure_characterization_witness :
    schemaBadMsg.sequence_id = some 1 ∧
    schemaBadMsg.id = some "cmd_start" ∧
    common_registry (pyReplace "cmd_start" "cmd_" "command_") = true ∧
    (1 : Int) = initSimState.last_sequence_id + 1 ∧
    strictValid schemaBadMsg = false ∧
    cmd_evt_dispatch_callback common_registry strictValid initSimState schemaBadMsg =
      DispatchResult.ok { last_sequence_id := 1, simulator_state := State.standby }
        [Output.cmdResponse Ack.noack 1] :=
  ⟨rfl, rfl, rfl, by decide, rfl,
   (validation_failure_characterization common_registry strictValid initSimState
      schemaBadMsg 1).2.2.2.1 "cmd_start" rfl rfl rfl (by decide) rfl⟩

/-! C4: terminal response for a no-op state transition. -/

/-- C4: evaluation of the dispatch callback at the failing input.  A second
`cmd_start` issued while the simulator is already DISABLED is a no-op
transition, yet the simulator replies `ack` then `success` (never `fail`),
contradicting the spec and `tests/test_simulator.py`; the second conjunct
shows the healthy half of the claim, `cmd_start` from STANDBY giving
DISABLED plus `success`. -/
theorem noop_start_replies_success :
    cmd_evt_dispatch_callback common_registry strictValid
        { last_sequence_id := 1, simulator_state := State.disabled } (msgStart 2) =
      DispatchResult.ok { last_sequence_id := 2, simulator_state := State.disabled }
        [Output.cmdResponse Ack.ack 2, Output.cmdResponse Ack.success 2,
         Output.evtSummaryState State.disabled] ∧
    cmd_evt_dispatch_callback common_registry strictValid initSimState (msgStart 1) =
      DispatchResult.ok { last_sequence_id := 1, simulator_state := State.disabled }
        [Output.cmdResponse Ack.ack 1, Output.cmdResponse Ack.success 1,
         Output.evtSummaryState State.disabled] :=
  ⟨rfl, rfl⟩

/-! C10: the base simulator never reaches FAULT. -/

/-- States reachable by the base simulator. -/
abbrev okState (st : State) : Prop :=
  st = State.standby ∨ st = State.disabled ∨ st = State.enabled

/-- One dispatch-callback call keeps `simulator_state` within
{STANDBY, DISABLED, ENABLED}, whether it returns or raises. -/
theorem dispatch_preserves_okState (reg : String → Bool)
    (valid : Message → Bool) (s : SimState) (d : Message)
    (h : okState s.simulator_state) :
    okState (stateAfter (cmd_evt_dispatch_callback reg valid s d)).simulator_state := by
  rcases d with ⟨id, seq, hv, ek⟩
  have hs1 := verify_data_simulator_state reg valid s ⟨id, seq, hv, ek⟩
  unfold cmd_evt_dispatch_callback
  cases hveq : verify_data reg valid s ⟨id, seq, hv, ek⟩ with
  | mk b s1 =>
    rw [hveq] at hs1
    have hok1 : okState s1.simulator_state := by
      rw [hs1]
      exact h
    cases b with
    | false =>
      cases seq with
      | none => simpa [stateAfter] using hok1
      | some sequence_id => simpa [stateAfter] using hok1
    | true =>
      cases id with
      | none => simpa [stateAfter] using hok1
      | some msg_id =>
        cases seq with
        | none => simpa [stateAfter] using hok1
        | some sequence_id =>
          cases hdm : dispatch_dict msg_id with
          | none => simpa [stateAfter, hdm] using hok1
          | some f =>
            by_cases hek : ek = []
            · subst hek
              simpa [stateAfter, hdm] using
                dispatch_dict_handler_state msg_id f hdm s1 sequence_id
            · simpa [stateAfter, hdm, hek] using hok1

/-- Processing any message sequence keeps `simulator_state` within
{STANDBY, DISABLED, ENABLED}. -/
theorem run_sim_okState (reg : String → Bool) (valid : Message → Bool)
    (msgs : List Message) (s : SimState) (h : okState s.simulator_state) :
    okState (run_sim reg valid s msgs).simulator_state := by
  induction msgs generalizing s with
  | nil => simpa [run_sim] using h
  | cons d ds ih =>
    exact ih (stateAfter (cmd_evt_dispatch_callback reg valid s d))
      (dispatch_preserves_okState reg valid s d h)

/-- C10: from its initial state the base simulator, fed any sequence of
messages through the dispatch callback, keeps `simulator_state` in
{STANDBY, DISABLED, ENABLED} and in particular never reaches FAULT. -/
theorem simulator_state_never_fault (reg : String → Bool)
    (valid : Message → Bool) (msgs : List Message) :
    ((run_sim reg valid initSimState msgs).simulator_state = State.standby ∨
     (run_sim reg valid initSimState msgs).simulator_state = State.disabled ∨
     (run_sim reg valid initSimState msgs).simulator_state = State.enabled) ∧
    (run_sim reg valid initSimState msgs).simulator_state ≠ State.fault := by
  have h := run_sim_okState reg valid msgs initSimState (Or.inl rfl)
  refine ⟨h, ?_⟩
  rcases h with h | h | h <;> simp [h]

/-! C3: single resolution of the completion signal. -/

/-- Apply a sequence of resolving setters to a ticket, in order. -/
def applyResolves : CommandIssued → List ResolveOp → CommandIssued
  | c, [] => c
  | c, op :: ops => applyResolves (applyResolve c op) ops

/-- Any single resolving setter leaves the ticket with a resolved future. -/
theorem applyResolve_isSome (c : CommandIssued) (op : ResolveOp) :
    (applyResolve c op).done.isSome = true := by
  cases op <;>
    cases hc : c.done <;>
      simp [applyResolve, CommandIssued.set_noack, CommandIssued.set_success,
        CommandIssued.set_fail, hc]

/-- A resolving setter never changes an already-stored result. -/
theorem applyResolve_preserves (c : CommandIssued) (op : ResolveOp)
    (r : DoneResult) (h : c.done = some r) : (applyResolve c op).done = some r := by
  cases op <;>
    simp [applyResolve, CommandIssued.set_noack, CommandIssued.set_success,
      CommandIssued.set_fail, h]

/-- No sequence of resolving setters changes an already-stored result. -/
theorem applyResolves_preserves (ops : List ResolveOp) (c : CommandIssued)
    (r : DoneResult) (h : c.done = some r) :
    (applyResolves c ops).done = some r := by
  induction ops generalizing c with
  | nil => simpa [applyResolves] using h
  | cons op ops ih =>
    exact ih (applyResolve c op) (applyResolve_preserves c op r h)

/-- C3: a pending ticket is resolved by the first of `set_noack`,
`set_success` or `set_fail` applied to it, and every later call of any of
the three leaves the stored result or exception unchanged, no matter how
many such calls follow. -/
theorem command_issued_single_resolution (c : CommandIssued) (op : ResolveOp)
    (ops : List ResolveOp) (hpending : c.done = none) :
    (applyResolve c op).done.isSome = true ∧
    ∀ r, (applyResolve c op).done = some r →
      (applyResolves (applyResolve c op) ops).done = some r := by
  refine ⟨applyResolve_isSome c op, ?_⟩
  intro r hr
  exact applyResolves_preserves ops (applyResolve c op) r hr

/-- C3 witness: a concrete pending ticket resolved by `set_success`, with a
`set_fail` and a `set_noack` applied afterwards. -/
theorem command_issued_single_resolution_witness :
    (CommandIssued.new 5 "cmd_start").done = none ∧
    (applyResolve (CommandIssued.new 5 "cmd_start") (ResolveOp.success 6)).done.isSome = true ∧
    (applyResolves (applyResolve (CommandIssued.new 5 "cmd_start") (ResolveOp.success 6))
        [ResolveOp.fail 7 "nope", ResolveOp.noack 8]).done = some DoneResult.success := by
  have h := command_issued_single_resolution (CommandIssued.new 5 "cmd_start")
    (ResolveOp.success 6) [ResolveOp.fail 7 "nope", ResolveOp.noack 8] rfl
  exact ⟨rfl, h.1, h.2 DoneResult.success rfl⟩

/-! Lemmas about the ticket dict. -/

/-- Looking up a key right after assigning it yields the assigned ticket. -/
theorem CmdMap.lookup_insert (m : CmdMap) (k : Int) (t : CommandIssued) :
    (m.insert k t).lookup k = some t := by
  induction m with
  | nil => simp [CmdMap.insert, CmdMap.lookup]
  | cons p rest ih =>
    obtain ⟨k1, u⟩ := p
    by_cases hk : k1 = k <;> simp [CmdMap.insert, CmdMap.lookup, hk, ih]

/-- Deleting one key does not change the lookup of another. -/
theorem CmdMap.lookup_erase_ne (m : CmdMap) (k k2 : Int) (hne : k ≠ k2) :
    (m.erase k2).lookup k = m.lookup k := by
  induction m with
  | nil => rfl
  | cons p rest ih =>
    obtain ⟨k1, u⟩ := p
    by_cases h1 : k1 = k2
    · subst h1
      have h2 : k1 ≠ k := fun hc => hne hc.symm
      simp [CmdMap.erase, CmdMap.lookup, h2]
    · by_cases h2 : k1 = k
      · subst h2
        simp [CmdMap.erase, CmdMap.lookup, hne]
      · simp [CmdMap.erase, CmdMap.lookup, h1, h2, ih]

/-! C9: ticket registration by `write_command`. -/

/-- A stale ticket occupying a sequence id, for the C9 counterexample. -/
def staleTicket : CommandIssued := CommandIssued.new 3 "cmd_old"

/-- C9 counterexample: issuing a command whose sequence id is already
present in `commands_issued` does not fail — the dict assignment silently
replaces the stored ticket with the fresh one. -/
theorem write_command_replaces_counterexample :
    (write_command
        { commands_issued := [(5, staleTicket)], fail_reason_event := false,
          waiters := [] } 9 "cmd_new" 5).1.commands_issued =
      [(5, CommandIssued.new 9 "cmd_new")] ∧
    CommandIssued.new 9 "cmd_new" ≠ staleTicket :=
  ⟨rfl, by decide⟩

/-- C9 (amended): `write_command` always registers a fresh pending ticket
under the drawn sequence id and returns it; when a ticket with that
sequence id is already present it is replaced, and the operation never
fails. -/
theorem write_command_registers (c : CtrlState) (now : Nat) (command : String)
    (sequence_id : Int) :
    (write_command c now command sequence_id).1.commands_issued.lookup sequence_id =
      some (CommandIssued.new now command) ∧
    (write_command c now command sequence_id).2 = CommandIssued.new now command ∧
    (CommandIssued.new now command).done = none := by
  refine ⟨?_, rfl, rfl⟩
  simpa [write_command] using
    CmdMap.lookup_insert c.commands_issued sequence_id (CommandIssued.new now command)

/-! C5: the reason-or-timeout race after a `fail` response. -/

/-- A live pending ticket for the C5 and C8 scenarios. -/
def sampleTicket : CommandIssued := CommandIssued.new 10 "cmd_enable"

/-- A second live pending ticket under another sequence id. -/
def otherTicket : CommandIssued := CommandIssued.new 11 "cmd_disable"

/-- A controller state with two live pending tickets. -/
def sampleCtrl : CtrlState :=
  { commands_issued := [(1, sampleTicket), (2, otherTicket)],
    fail_reason_event := false, waiters := [] }

/-- A `failReason` message for ticket 2, not for ticket 1. -/
def foreignReason : RespData :=
  { id := "failReason", sequence_id := 2, reason := some "boom",
    errorDetails := some "" }

/-- C5 counterexample: ticket 1 receives `fail` and no `failReason` for its
sequence id arrives within the window, yet because a `failReason` for the
other live ticket set the shared `fail_reason_event`, the waiter never
fires: ticket 1 stays in the live dict, still pending, instead of being
resolved with the generic cause and removed. -/
theorem fail_window_foreign_reason_counterexample :
    run_fail_window 12 sampleCtrl 1 [foreignReason] =
      HandleResult.ok
        { commands_issued := [(1, sampleTicket)], fail_reason_event := true,
          waiters := [1] }
        [(2, otherTicket.set_fail 12 "boom.")] ∧
    sampleTicket.done = none :=
  ⟨rfl, rfl⟩

/-- C5 (amended): after a `fail` for a live pending ticket the ticket is not
resolved immediately; a `failReason` for its sequence id within the window
resolves it with the supplied reason and removes it; if no `failReason` at
all arrives within the window the waiter resolves it with the generic
"No reason provided." cause and removes it; but a `failReason` for a
different live ticket suppresses the waiter, leaving the ticket live and
handled only by the cleanup sweep later. -/
theorem fail_window_characterization (now : Nat) (c : CtrlState)
    (sequence_id : Int) (t : CommandIssued)
    (hlive : c.commands_issued.lookup sequence_id = some t) :
    (handle_command_response now c
        { id := "fail", sequence_id := sequence_id, reason := none,
          errorDetails := none } =
      HandleResult.ok
        { c with
          fail_reason_event := false
          waiters := c.waiters ++ [sequence_id] } []) ∧
    (run_fail_window now c sequence_id [] =
      HandleResult.ok
        { commands_issued := c.commands_issued.erase sequence_id,
          fail_reason_event := false, waiters := c.waiters ++ [sequence_id] }
        [(sequence_id, t.set_fail now "No reason provided.")]) ∧
    (∀ r d, run_fail_window now c sequence_id
        [{ id := "failReason", sequence_id := sequence_id, reason := some r,
           errorDetails := some d }] =
      HandleResult.ok
        { commands_issued := c.commands_issued.erase sequence_id,
          fail_reason_event := true, waiters := c.waiters ++ [sequence_id] }
        [(sequence_id,
          t.set_fail now (if d ≠ "" then r ++ ": " ++ d ++ "." else r ++ "."))]) ∧
    (∀ sid2 t2 r d, sid2 ≠ sequence_id →
        c.commands_issued.lookup sid2 = some t2 →
      run_fail_window now c sequence_id
          [{ id := "failReason", sequence_id := sid2, reason := some r,
             errorDetails := some d }] =
        HandleResult.ok
          { commands_issued := c.commands_issued.erase sid2,
            fail_reason_event := true, waiters := c.waiters ++ [sequence_id] }
          [(sid2,
            t2.set_fail now (if d ≠ "" then r ++ ": " ++ d ++ "." else r ++ "."))] ∧
      (c.commands_issued.erase sid2).lookup sequence_id = some t) := by
  have hfail : handle_command_response now c
      { id := "fail", sequence_id := sequence_id, reason := none,
        errorDetails := none } =
      HandleResult.ok
        { c with
          fail_reason_event := false
          waiters := c.waiters ++ [sequence_id] } [] := by
    simp only [handle_command_response]
    rw [hlive]
    rfl
  refine ⟨hfail, ?_, ?_, ?_⟩
  · unfold run_fail_window
    rw [hfail]
    simp only [HandleResult.thenRun, handle_messages]
    simp only [wait_fail_reason_event]
    rw [hlive]
    rfl
  · intro r d
    unfold run_fail_window
    rw [hfail]
    simp only [HandleResult.thenRun, handle_messages]
    simp only [handle_command_response]
    rw [hlive]
    rfl
  · intro sid2 t2 r d hne hlive2
    have hkeep := CmdMap.lookup_erase_ne c.commands_issued sequence_id sid2 hne.symm
    refine ⟨?_, by rw [hkeep]; exact hlive⟩
    unfold run_fail_window
    rw [hfail]
    simp only [HandleResult.thenRun, handle_messages]
    simp only [handle_command_response]
    rw [hlive2]
    rfl

/-- C5 witness: the characterization applied to the two-ticket state, using
the branch where no `failReason` arrives. -/
theorem fail_window_characterization_witness :
    sampleCtrl.commands_issued.lookup 1 = some sampleTicket ∧
    run_fail_window 12 sampleCtrl 1 [] =
      HandleResult.ok
        { commands_issued := sampleCtrl.commands_issued.erase 1,
          fail_reason_event := false, waiters := sampleCtrl.waiters ++ [1] }
        [(1, sampleTicket.set_fail 12 "No reason provided.")] :=
  ⟨rfl, (fail_window_characterization 12 sampleCtrl 1 sampleTicket rfl).2.1⟩

/-! C8: acknowledgement codes outside the known set. -/

/-- A raw message arriving on the cmd/evt connection, before the loop sorts
it into event, command response, or neither. -/
structure CmdEvtData where
  id : String
  sequence_id : Option Int
  reason : Option String
  errorDetails : Option String
deriving DecidableEq, Repr

/-- What one iteration of `cmd_evt_loop` does with a message: delegate to
`_handle_event`, delegate to `_handle_command_response` (whose result may be
an escaping exception), or call `self.fault` for a message that is neither
an event nor carries a sequence id. -/
inductive LoopStep where
  | handledEvent
  | handledResponse (r : HandleResult)
  | faulted (report : String)
deriving DecidableEq, Repr

/-- Python `str.startswith`, on the embedded string model. -/
def strStartsWith (s p : String) : Bool :=
  (stripPrefixChars s.data p.data).isSome

/-- Embedding of the dispatch part of one `cmd_evt_loop` iteration: an id
starting with "evt_" goes to the event handler; otherwise a message with a
`sequence_id` key goes to `_handle_command_response`; otherwise the CSC
logs and goes to FAULT. -/
def cmd_evt_process_one (now : Nat) (c : CtrlState) (data : CmdEvtData) :
    LoopStep :=
  if strStartsWith data.id "evt_" then LoopStep.handledEvent
  else
    match data.sequence_id with
    | some sequence_id =>
      LoopStep.handledResponse (handle_command_response now c
        { id := data.id, sequence_id := sequence_id, reason := data.reason,
          errorDetails := data.errorDetails })
    | none =>
      LoopStep.faulted ("Received incorrect event or command " ++ data.id ++ ".")

/-- An acknowledgement message with a code outside the known set, for a
live sequence id. -/
def unknownAckMsg : CmdEvtData :=
  { id := "weird", sequence_id := some 1, reason := none, errorDetails := none }

/-- C8 counterexample: an unknown acknowledgement code for a live sequence
id makes `_handle_command_response` raise a RuntimeError that escapes the
loop iteration; the fault path is not invoked (and nothing is logged by
this code path), contradicting the claim that the controller's fault path
is triggered. -/
theorem unknown_ack_code_counterexample :
    cmd_evt_process_one 0 sampleCtrl unknownAckMsg =
      LoopStep.handledResponse
        (HandleResult.raised sampleCtrl [] "Received unexpected response=weird.") ∧
    ∀ report, cmd_evt_process_one 0 sampleCtrl unknownAckMsg ≠ LoopStep.faulted report := by
  refine ⟨rfl, ?_⟩
  intro report h
  rw [show cmd_evt_process_one 0 sampleCtrl unknownAckMsg =
      LoopStep.handledResponse
        (HandleResult.raised sampleCtrl [] "Received unexpected response=weird.")
    from rfl] at h
  cases h

/-- C8 (amended): an acknowledgement code outside
{ack, noack, success, fail, failReason} received for a live sequence id
makes `_handle_command_response` raise a RuntimeError naming the code —
never a silent drop, but also never a normal return, and the controller's
fault path is not invoked on this path. -/
theorem unknown_ack_code_raises (now : Nat) (c : CtrlState) (data : RespData)
    (t : CommandIssued)
    (hlive : c.commands_issued.lookup data.sequence_id = some t)
    (h1 : data.id ≠ "ack") (h2 : data.id ≠ "noack") (h3 : data.id ≠ "success")
    (h4 : data.id ≠ "fail") (h5 : data.id ≠ "failReason") :
    handle_command_response now c data =
      HandleResult.raised c [] ("Received unexpected response=" ++ data.id ++ ".") ∧
    ∀ c2 removed, handle_command_response now c data ≠ HandleResult.ok c2 removed := by
  have heq : handle_command_response now c data =
      HandleResult.raised c [] ("Received unexpected response=" ++ data.id ++ ".") := by
    simp only [handle_command_response]
    rw [hlive]
    simp [h1, h2, h3, h4, h5]
  refine ⟨heq, ?_⟩
  intro c2 removed hok
  rw [heq] at hok
  cases hok

/-- C8 witness: the amended theorem applied at the concrete unknown code. -/
theorem unknown_ack_code_raises_witness :
    sampleCtrl.commands_issued.lookup 1 = some sampleTicket ∧
    ("weird" : String) ≠ "ack" ∧
    handle_command_response 0 sampleCtrl
        { id := "weird", sequence_id := 1, reason := none, errorDetails := none } =
      HandleResult.raised sampleCtrl [] ("Received unexpected response=" ++ "weird" ++ ".") :=
  ⟨rfl, by decide,
   (unknown_ack_code_raises 0 sampleCtrl
      { id := "weird", sequence_id := 1, reason := none, errorDetails := none }
      sampleTicket rfl (by decide) (by decide) (by decide) (by decide) (by decide)).1⟩

/-! C6: the multi-step chain driven by `begin_enable`. -/

/-- C6: with the device last known in FAULT, the `begin_enable` driver loop
issues exactly STANDBY, then START, then ENABLE, in that order, and then
observes the device in ENABLED; each command is the one the
`match self.at_state` transition table picks for the current device state. -/
theorem begin_enable_from_fault_command_order :
    begin_enable_loop State.disabled 4 State.fault =
      ([CommonCommand.standby, CommonCommand.start, CommonCommand.enable],
       State.enabled) ∧
    next_command State.fault = some CommonCommand.standby ∧
    next_command State.standby = some CommonCommand.start ∧
    next_command State.disabled = some CommonCommand.enable ∧
    next_command State.enabled = none :=
  ⟨rfl, rfl, rfl, rfl, rfl⟩

/-! C7: the stale-ticket sweep of `_cleanup_commands`. -/

/-- One sweep keeps exactly the tickets of age at most `CMD_DONE_TIMEOUT`
and removes the older ones, resolving each removed ticket through
`set_fail("No fail reason received.")`. -/
theorem cleanup_sweep_parts (now : Nat) (m : CmdMap) :
    (cleanup_commands_sweep now m).1 =
      m.filter (fun p => decide (now - p.2.timestamp ≤ CMD_DONE_TIMEOUT)) ∧
    (cleanup_commands_sweep now m).2 =
      (m.filter (fun p => decide (now - p.2.timestamp > CMD_DONE_TIMEOUT))).map
        (fun p => (p.1, p.2.set_fail now "No fail reason received.")) := by
  induction m with
  | nil => exact ⟨rfl, rfl⟩
  | cons p rest ih =>
    obtain ⟨k, t⟩ := p
    by_cases hc : now - t.timestamp > CMD_DONE_TIMEOUT
    · have hd : ¬ (now ≤ CMD_DONE_TIMEOUT + t.timestamp) := by omega
      simp [cleanup_commands_sweep, List.filter_cons, hc, hd, ih.1, ih.2]
    · have hd : now ≤ CMD_DONE_TIMEOUT + t.timestamp := by omega
      simp [cleanup_commands_sweep, List.filter_cons, hc, hd, ih.1, ih.2]

/-- Unfolding equation for one reaper iteration. -/
theorem run_reaper_succ (s0 k : Nat) (m : CmdMap) :
    run_reaper s0 (k + 1) m =
      ((run_reaper (s0 + CMD_DONE_TIMEOUT) k (cleanup_commands_sweep s0 m).1).1,
       (cleanup_commands_sweep s0 m).2.map (fun p => (s0, p.1, p.2)) ++
         (run_reaper (s0 + CMD_DONE_TIMEOUT) k (cleanup_commands_sweep s0 m).1).2) :=
  rfl

/-- Sweeps whose times never exceed the ticket's timestamp plus the timeout
leave a singleton dict untouched. -/
theorem run_reaper_keep (sid : Int) (t : CommandIssued) (j : Nat) :
    ∀ s0, (∀ i, i < j → s0 + CMD_DONE_TIMEOUT * i ≤ t.timestamp + CMD_DONE_TIMEOUT) →
      run_reaper s0 j [(sid, t)] = ([(sid, t)], []) := by
  induction j with
  | zero => intro s0 _; rfl
  | succ j ih =>
    intro s0 hkeep
    have h0 : ¬ (s0 - t.timestamp > CMD_DONE_TIMEOUT) := by
      have := hkeep 0 (Nat.succ_pos j)
      simp only [CMD_DONE_TIMEOUT] at *
      omega
    have hrest := ih (s0 + CMD_DONE_TIMEOUT) (by
      intro i hi
      have := hkeep (i + 1) (by omega)
      simp only [CMD_DONE_TIMEOUT] at *
      omega)
    have hsweep : cleanup_commands_sweep s0 [(sid, t)] = ([(sid, t)], []) := by
      simp [cleanup_commands_sweep, h0]
    simp only [run_reaper_succ, hsweep]
    simp only [hrest]
    simp

/-- The first sweep whose time exceeds the ticket's timestamp plus the
timeout resolves the ticket with the "No fail reason received." cause and
removes it; `j` earlier sweeps leave it alone. -/
theorem run_reaper_remove (sid : Int) (t : CommandIssued) (j : Nat) :
    ∀ s0, (∀ i, i < j → s0 + CMD_DONE_TIMEOUT * i ≤ t.timestamp + CMD_DONE_TIMEOUT) →
      t.timestamp + CMD_DONE_TIMEOUT < s0 + CMD_DONE_TIMEOUT * j →
      run_reaper s0 (j + 1) [(sid, t)] =
        ([], [(s0 + CMD_DONE_TIMEOUT * j, sid,
               t.set_fail (s0 + CMD_DONE_TIMEOUT * j) "No fail reason received.")]) := by
  induction j with
  | zero =>
    intro s0 _ hrem
    have h0 : s0 - t.timestamp > CMD_DONE_TIMEOUT := by
      simp only [CMD_DONE_TIMEOUT] at *
      omega
    have hsweep : cleanup_commands_sweep s0 [(sid, t)] =
        ([], [(sid, t.set_fail s0 "No fail reason received.")]) := by
      simp [cleanup_commands_sweep, h0]
    simp only [run_reaper_succ, hsweep]
    simp [run_reaper]
  | succ j ih =>
    intro s0 hkeep hrem
    have h0 : ¬ (s0 - t.timestamp > CMD_DONE_TIMEOUT) := by
      have := hkeep 0 (Nat.succ_pos j)
      simp only [CMD_DONE_TIMEOUT] at *
      omega
    have harith : s0 + CMD_DONE_TIMEOUT + CMD_DONE_TIMEOUT * j =
        s0 + CMD_DONE_TIMEOUT * (j + 1) := by
      simp only [CMD_DONE_TIMEOUT]
      ring
    have hrest := ih (s0 + CMD_DONE_TIMEOUT) (by
      intro i hi
      have := hkeep (i + 1) (by omega)
      simp only [CMD_DONE_TIMEOUT] at *
      omega) (by
      simp only [CMD_DONE_TIMEOUT] at *
      omega)
    rw [harith] at hrest
    have hsweep : cleanup_commands_sweep s0 [(sid, t)] = ([(sid, t)], []) := by
      simp [cleanup_commands_sweep, h0]
    have hstep : run_reaper s0 (j + 1 + 1) [(sid, t)] =
        run_reaper (s0 + CMD_DONE_TIMEOUT) (j + 1) [(sid, t)] := by
      rw [run_reaper_succ, hsweep]
      rfl
    rw [hstep, hrest]

/-- There is a sweep index whose time falls in the half-open window right
after the ticket becomes stale, at most twice the timeout after issuance. -/
theorem reaper_sweep_exists (s0 c : Nat) (hstart : s0 ≤ c) :
    ∃ j, (∀ i, i < j → s0 + CMD_DONE_TIMEOUT * i ≤ c + CMD_DONE_TIMEOUT) ∧
      c + CMD_DONE_TIMEOUT < s0 + CMD_DONE_TIMEOUT * j ∧
      s0 + CMD_DONE_TIMEOUT * j ≤ c + 2 * CMD_DONE_TIMEOUT := by
  refine ⟨(c + CMD_DONE_TIMEOUT - s0) / CMD_DONE_TIMEOUT + 1, ?_, ?_, ?_⟩
  · intro i hi
    simp only [CMD_DONE_TIMEOUT] at *
    omega
  · simp only [CMD_DONE_TIMEOUT] at *
    omega
  · simp only [CMD_DONE_TIMEOUT] at *
    omega

/-- C7 (amended): each sweep of `_cleanup_commands` resolves exactly the
live tickets older than `CMD_DONE_TIMEOUT` with the cause
"No fail reason received." and removes them; under total silence, with
sweeps every `CMD_DONE_TIMEOUT` seconds starting at `s0` no later than the
issue time `c`, the ticket is resolved at the first sweep after its age
exceeds the timeout: strictly later than `c + CMD_DONE_TIMEOUT` (hence not
before any acknowledgement received within the timeout window) and no later
than `c + 2 * CMD_DONE_TIMEOUT`. -/
theorem reaper_characterization (s0 c : Nat) (sid : Int) (name : String)
    (hstart : s0 ≤ c) :
    (∀ now m, (cleanup_commands_sweep now m).1 =
        m.filter (fun p => decide (now - p.2.timestamp ≤ CMD_DONE_TIMEOUT)) ∧
      (cleanup_commands_sweep now m).2 =
        (m.filter (fun p => decide (now - p.2.timestamp > CMD_DONE_TIMEOUT))).map
          (fun p => (p.1, p.2.set_fail now "No fail reason received."))) ∧
    ∃ j, run_reaper s0 (j + 1) [(sid, CommandIssued.new c name)] =
        ([], [(s0 + CMD_DONE_TIMEOUT * j, sid,
               (CommandIssued.new c name).set_fail (s0 + CMD_DONE_TIMEOUT * j)
                 "No fail reason received.")]) ∧
      c + CMD_DONE_TIMEOUT < s0 + CMD_DONE_TIMEOUT * j ∧
      s0 + CMD_DONE_TIMEOUT * j ≤ c + 2 * CMD_DONE_TIMEOUT ∧
      ∀ a, a ≤ c + CMD_DONE_TIMEOUT → a < s0 + CMD_DONE_TIMEOUT * j := by
  refine ⟨fun now m => cleanup_sweep_parts now m, ?_⟩
  obtain ⟨j, hkeep, hlate, hbound⟩ := reaper_sweep_exists s0 c hstart
  refine ⟨j, ?_, hlate, hbound, fun a ha => by omega⟩
  exact run_reaper_remove sid (CommandIssued.new c name) j s0 hkeep hlate

/-- C7 counterexample: reaper task started at time 0, ticket issued and
acknowledged at time 1, total silence afterwards.  The sweep at time 60
leaves the ticket (age 59), and the sweep at time 120 resolves it — 119
seconds after issuance, strictly later than the 60-second
command-completion timeout — and the stored cause is the literal
"No fail reason received.", not "no terminal response received". -/
theorem reaper_counterexample :
    run_reaper 0 3 [(1, CommandIssued.new 1 "cmd_enable")] =
      ([], [(120, 1,
            { name := "cmd_enable", timestamp := 1, ack_timestamp := none,
              done_timestamp := some 120,
              done := some (DoneResult.failure
                "Command cmd_enable failed with reason=No fail reason received..") })]) ∧
    cleanup_commands_sweep 60 [(1, CommandIssued.new 1 "cmd_enable")] =
      ([(1, CommandIssued.new 1 "cmd_enable")], []) ∧
    120 - 1 > CMD_DONE_TIMEOUT := by
  refine ⟨?_, ?_, ?_⟩ <;> decide

/-- C7 witness: the amended theorem applied at reaper start 0 and issue
time 1. -/
theorem reaper_characterization_witness :
    (0 : Nat) ≤ 1 ∧
    (∃ j, run_reaper 0 (j + 1) [(7, CommandIssued.new 1 "cmd_enable")] =
        ([], [(0 + CMD_DONE_TIMEOUT * j, 7,
               (CommandIssued.new 1 "cmd_enable").set_fail (0 + CMD_DONE_TIMEOUT * j)
                 "No fail reason received.")]) ∧
      1 + CMD_DONE_TIMEOUT < 0 + CMD_DONE_TIMEOUT * j ∧
      0 + CMD_DONE_TIMEOUT * j ≤ 1 + 2 * CMD_DONE_TIMEOUT ∧
      ∀ a, a ≤ 1 + CMD_DONE_TIMEOUT → a < 0 + CMD_DONE_TIMEOUT * j) :=
  ⟨by decide, (reaper_characterization 0 1 7 "cmd_enable" (by decide)).2⟩

end Attcpip
